import Mathlib

/-!
Verification of the Stratux sensors → ForeFlight CSV converter
(`stratux_sensors_to_foreflight.py`) against its natural-language
specification.

Modelling conventions (shallow embedding):
* Python floats are modelled as exact rationals (`ℚ`).  Every claim under
  test concerns exactly representable decimal values (the sentinels
  `999999` and `1e12`, coordinate bounds, speed bands), on which IEEE
  doubles and `ℚ` agree.
* Rational arithmetic inside executable definitions is written with the
  `Rat.divInt`-based helpers `qAdd`/`qMul`/`qInv`/`qDiv`/`qNeg`/`qAbs`
  below, because the primitive `Rat.add`/`Rat.mul`/… are irreducible for
  the kernel; the lemmas `qAdd_eq`/… prove each helper equal to the
  standard field operation on `ℚ`.
* String manipulation (`strip`, `lower`, `startswith`, `endswith`,
  slicing, `replace(",", ".")`) is modelled over `List Char` so that all
  definitions reduce in the kernel.
* `datetime` instants are modelled as rational epoch seconds (UTC);
  `datetime.fromtimestamp` fails outside the representable `datetime`
  range, modelled by the bounds `PY_MIN_TS`/`PY_MAX_TS`.
* Real-valued trigonometry (the haversine distance, the radians→degrees
  heuristic) is modelled over `ℝ` with `Real.sin`/`Real.cos`/etc.
-/

namespace StratuxConv

/-- Kernel-reducible addition on `ℚ` (see `qAdd_eq`). -/
def qAdd (a b : ℚ) : ℚ :=
  Rat.divInt (a.num * (b.den : ℤ) + b.num * (a.den : ℤ)) ((a.den : ℤ) * (b.den : ℤ))

/-- Kernel-reducible multiplication on `ℚ` (see `qMul_eq`). -/
def qMul (a b : ℚ) : ℚ := Rat.divInt (a.num * b.num) ((a.den : ℤ) * (b.den : ℤ))

/-- Kernel-reducible inverse on `ℚ` (see `qInv_eq`). -/
def qInv (a : ℚ) : ℚ := Rat.divInt (a.den : ℤ) a.num

/-- Kernel-reducible division on `ℚ` (see `qDiv_eq`). -/
def qDiv (a b : ℚ) : ℚ := qMul a (qInv b)

/-- Kernel-reducible negation on `ℚ` (see `qNeg_eq`). -/
def qNeg (a : ℚ) : ℚ := Rat.divInt (-a.num) (a.den : ℤ)

/-- Kernel-reducible subtraction on `ℚ` (see `qSub_eq`). -/
def qSub (a b : ℚ) : ℚ := qAdd a (qNeg b)

/-- Kernel-reducible absolute value on `ℚ` (see `qAbs_eq`). -/
def qAbs (a : ℚ) : ℚ := if a < 0 then qNeg a else a

/-- Kernel-reducible `(10 : ℚ) ^ n` (see `qp10_eq`). -/
def qp10 (n : ℕ) : ℚ := ((10 ^ n : ℕ) : ℚ)

/-- Kernel-reducible `q * (10 : ℚ) ^ e` for an integer exponent
(see `qScale10_eq`). -/
def qScale10 (q : ℚ) (e : ℤ) : ℚ :=
  if 0 ≤ e then qMul q (qp10 e.toNat) else qDiv q (qp10 (-e).toNat)

lemma qAdd_eq (a b : ℚ) : qAdd a b = a + b := by
  rw [qAdd, ← Rat.divInt_add_divInt a.num b.num
        (by exact_mod_cast a.den_ne_zero) (by exact_mod_cast b.den_ne_zero),
      Rat.num_divInt_den, Rat.num_divInt_den]

lemma qMul_eq (a b : ℚ) : qMul a b = a * b := by
  rw [qMul, ← Rat.divInt_mul_divInt', Rat.num_divInt_den, Rat.num_divInt_den]

lemma qInv_eq (a : ℚ) : qInv a = a⁻¹ := (Rat.inv_def' a).symm

lemma qDiv_eq (a b : ℚ) : qDiv a b = a / b := by
  rw [qDiv, qMul_eq, qInv_eq, div_eq_mul_inv]

lemma qNeg_eq (a : ℚ) : qNeg a = -a := by
  rw [qNeg, ← Rat.neg_divInt, Rat.num_divInt_den]

lemma qSub_eq (a b : ℚ) : qSub a b = a - b := by
  rw [qSub, qAdd_eq, qNeg_eq, sub_eq_add_neg]

lemma qAbs_eq (a : ℚ) : qAbs a = |a| := by
  rw [qAbs]
  split
  · rw [qNeg_eq, abs_of_neg (by assumption)]
  · rw [abs_of_nonneg (le_of_not_lt (by assumption))]

lemma qp10_eq (n : ℕ) : qp10 n = (10 : ℚ) ^ n := by
  rw [qp10]; push_cast; ring

lemma qScale10_eq (q : ℚ) (e : ℤ) : qScale10 q e = q * (10 : ℚ) ^ e := by
  rw [qScale10]
  split
  · rw [qMul_eq, qp10_eq, ← zpow_natCast, Int.toNat_of_nonneg (by assumption)]
  · rw [qDiv_eq, qp10_eq, ← zpow_natCast,
        Int.toNat_of_nonneg (by omega), zpow_neg, div_eq_mul_inv, inv_inv]

/-- Python `str.strip()` (ASCII whitespace) on a character list. -/
def stripL (cs : List Char) : List Char :=
  ((cs.dropWhile Char.isWhitespace).reverse.dropWhile Char.isWhitespace).reverse

/-- Python `str.lower()` on a character list. -/
def lowerL (cs : List Char) : List Char := cs.map Char.toLower

/-- Value of a digit string, e.g. `['1','0','3'] ↦ 103`. -/
def natOfDigits (cs : List Char) : ℕ :=
  cs.foldl (fun a c => 10 * a + (c.toNat - 48)) 0

/-- Parse the mantissa part of a Python float literal: `digits`,
`digits.digits`, `digits.` or `.digits`. -/
def parseMantissa? (cs : List Char) : Option ℚ :=
  match cs.splitOn '.' with
  | [w] =>
      if !w.isEmpty && w.all Char.isDigit then some (natOfDigits w : ℚ) else none
  | [w, f] =>
      if (!w.isEmpty || !f.isEmpty) && w.all Char.isDigit && f.all Char.isDigit then
        some (qAdd (natOfDigits w : ℚ) (qDiv (natOfDigits f : ℚ) (qp10 f.length)))
      else none
  | _ => none

/-- Parse the (optionally signed) exponent of a Python float literal. -/
def parseExp? (cs : List Char) : Option ℤ :=
  match cs with
  | '+' :: ds => if !ds.isEmpty && ds.all Char.isDigit then some (natOfDigits ds : ℤ) else none
  | '-' :: ds => if !ds.isEmpty && ds.all Char.isDigit then some (-(natOfDigits ds : ℤ)) else none
  | ds => if !ds.isEmpty && ds.all Char.isDigit then some (natOfDigits ds : ℤ) else none

/-- Python `float(s)` on an already-stripped string, modelled exactly over
`ℚ`: optional sign, decimal mantissa, optional `e`/`E` exponent.  Special
values (`inf`, `nan`) and digit-group underscores are outside the model. -/
def parseFloatL? (cs0 : List Char) : Option ℚ :=
  let cs := lowerL cs0
  let sb : ℤ × List Char :=
    match cs with
    | '+' :: rest => (1, rest)
    | '-' :: rest => (-1, rest)
    | _ => (1, cs)
  match sb.2.splitOn 'e' with
  | [m] => (parseMantissa? m).map (fun q => qMul (sb.1 : ℚ) q)
  | [m, ex] =>
      match parseMantissa? m, parseExp? ex with
      | some q, some e => some (qScale10 (qMul (sb.1 : ℚ) q) e)
      | _, _ => none
  | _ => none

/-- Unit-suffix vocabulary of `parse_number`, in source order. -/
def UNIT_SUFFIXES : List String := ["ft", "feet", "kts", "knots", "mps", "kmh", "km/h", "m/s"]

/-- Source `parse_number(v)`: lenient string→number coercion.
`None → None`; empty-after-strip or Go error marker `"%!f("` prefix → `0.0`;
else direct float parse with the `x == 999999.0 or abs(x) > 1e12` sentinel
filter; on direct-parse failure, strip a known unit suffix, strip again, map
decimal comma to point, and re-parse (the re-parse result is returned as is,
without the sentinel filter). -/
def parse_number (v : Option String) : Option ℚ :=
  match v with
  | none => none
  | some raw =>
    let s := stripL raw.toList
    if s.isEmpty || "%!f(".toList.isPrefixOf s then some 0
    else
      match parseFloatL? s with
      | some x =>
          -- 1000000000000 = 1e12
          if x = 999999 ∨ qAbs x > 1000000000000 then none else some x
      | none =>
        match UNIT_SUFFIXES.find? (fun u => u.toList.isSuffixOf (lowerL s)) with
        | some u =>
            parseFloatL?
              ((stripL (s.take (s.length - u.length))).map
                (fun c => if c = ',' then '.' else c))
        | none => none


/-- The code's median of a value list: sort ascending, take the element at
index `len // 2` (`vals.sort(); m = vals[len(vals)//2]`). -/
def medianOf (vals : List ℚ) : ℚ :=
  (List.insertionSort (· ≤ ·) vals).getD (vals.length / 2) 0

/-- Source `detect_speed_units(samples)`: drop absent entries; with fewer
than 5 valid samples default to `"kts"`; otherwise classify the median by
the bands `[40,250] → kts`, `[18,100] → mps`, `[70,450] → kmh` in that
order, defaulting to `"kts"`. -/
def detect_speed_units (samples : List (Option ℚ)) : String :=
  let vals := samples.filterMap id
  if vals.length < 5 then "kts"
  else
    let m := medianOf vals
    if 40 ≤ m ∧ m ≤ 250 then "kts"
    else if 18 ≤ m ∧ m ≤ 100 then "mps"
    else if 70 ≤ m ∧ m ≤ 450 then "kmh"
    else "kts"

/-- Knots per meter-per-second, the source constant `1.943844492`. -/
def KTS_PER_MPS : ℚ := Rat.divInt 1943844492 1000000000

/-- Knots per km/h, the source constant `0.539956803`. -/
def KTS_PER_KMH : ℚ := Rat.divInt 539956803 1000000000

/-- Source `spd_to_knots(v, units)`. -/
def spd_to_knots (v : Option ℚ) (units : String) : Option ℚ :=
  match v with
  | none => none
  | some x =>
    if units = "kts" then some x
    else if units = "mps" then some (qMul x KTS_PER_MPS)
    else if units = "kmh" then some (qMul x KTS_PER_KMH)
    else some x

/-- Source `maybe_deg_from_rad(x)`: magnitude at most `π + 0.2` is taken to
be radians and converted to degrees, otherwise returned unchanged. -/
noncomputable def maybe_deg_from_rad (x : ℝ) : ℝ :=
  if |x| ≤ Real.pi + 0.2 then x * 180 / Real.pi else x

/-- Source `in_range_latlon(lat, lon)`: both present, latitude in
`[-90, 90]` and longitude in `[-180, 180]`. -/
def in_range_latlon (lat lon : Option ℚ) : Bool :=
  match lat, lon with
  | some la, some lo =>
      decide (-90 ≤ la) && decide (la ≤ 90) && decide (-180 ≤ lo) && decide (lo ≤ 180)
  | _, _ => false

/-- Least epoch second representable by Python `datetime` (year 1). -/
def PY_MIN_TS : ℚ := ((-62135596800 : ℤ) : ℚ)

/-- One past the greatest epoch second representable by Python `datetime`
(year 9999). -/
def PY_MAX_TS : ℚ := 253402300800

/-- Source `parse_epoch_as_dt(x)`: parse as a number and interpret as UTC
seconds since the epoch; `datetime.fromtimestamp` raising (value outside
the representable `datetime` range) is caught and yields `None`.  Instants
are modelled as rational epoch seconds. -/
def parse_epoch_as_dt (x : Option String) : Option ℚ :=
  match parse_number x with
  | none => none
  | some v => if PY_MIN_TS ≤ v ∧ v < PY_MAX_TS then some v else none

/-- Source `parse_sod_as_dt(x, anchor_date, fallback_path)`: parse as a
number, require it in `[0, 200000]`, and add it to a midnight anchor.
`anchorMidnight` is the epoch second of UTC midnight of an explicitly
supplied anchor date; `fallbackMidnight` abstracts the
file-modification-time / current-time midnight fallback (environment
input). -/
def parse_sod_as_dt (x : Option String) (anchorMidnight : Option ℚ)
    (fallbackMidnight : ℚ) : Option ℚ :=
  match parse_number x with
  | none => none
  | some v =>
    if v < 0 ∨ v > 200000 then none
    else
      let base := match anchorMidnight with
        | some b => b
        | none => fallbackMidnight
      some (qAdd base v)

/-- Python float modulo `x % m` for positive `m` (used as `trk % 360.0`). -/
def pymod (x m : ℚ) : ℚ := qSub x (qMul m ((⌊qDiv x m⌋ : ℤ) : ℚ))

/-- Source `haversine_m(lat1, lon1, lat2, lon2)`: great-circle distance in
meters on a sphere of radius 6 371 000 m. -/
noncomputable def haversine_m (lat1 lon1 lat2 lon2 : ℚ) : ℝ :=
  let R : ℝ := 6371000
  let phi1 := (lat1 : ℝ) * Real.pi / 180
  let phi2 := (lat2 : ℝ) * Real.pi / 180
  let dphi := ((lat2 : ℝ) - (lat1 : ℝ)) * Real.pi / 180
  let dl := ((lon2 : ℝ) - (lon1 : ℝ)) * Real.pi / 180
  let a := Real.sin (dphi / 2) ^ 2 +
    Real.cos phi1 * Real.cos phi2 * Real.sin (dl / 2) ^ 2
  2 * R * Real.arcsin (Real.sqrt a)

/-- Loop body of `nearest_airport_ident`: keep the incumbent best
`(ident, distance-nm)` pair unless this record is strictly closer. -/
noncomputable def nearStep (lat lon : ℚ) (b : String × ℝ)
    (a : String × ℚ × ℚ) : String × ℝ :=
  let d_nm := haversine_m lat lon a.2.1 a.2.2 / 1852
  if d_nm < b.2 then (a.1, d_nm) else b

/-- Source `nearest_airport_ident(lat, lon, airports, max_nm)`: linear scan
retaining the single closest record (strict improvement over an initial
best of `1e9` nm with empty identifier); return the best identifier if its
distance is at most `max_nm`, else the empty string.  An airport record is
`(ident, lat, lon)`. -/
noncomputable def nearest_airport_ident (lat lon : ℚ)
    (airports : List (String × ℚ × ℚ)) (max_nm : ℝ) : String :=
  let best := airports.foldl (nearStep lat lon) ("", (10 : ℝ) ^ (9 : ℕ))
  if best.2 ≤ max_nm then best.1 else ""

/-- Resolved schema and run configuration for the per-row fold of `main`:
which canonical columns resolved to a header (the `*_k` flags model
`lat_k`, …, `time_epoch_k`, `time_sod_k` being non-`None`), the anchor
date, the environment's fallback midnight, and the resolved speed unit. -/
structure Config where
  lat_k : Bool
  lon_k : Bool
  alt_k : Bool
  spd_k : Bool
  trk_k : Bool
  bank_k : Bool
  pitch_k : Bool
  her_k : Bool
  ver_k : Bool
  g_k : Bool
  time_epoch_k : Bool
  time_sod_k : Bool
  anchorMidnight : Option ℚ
  fallbackMidnight : ℚ
  spd_units : String

/-- One raw CSV row, after header lookup: the raw string cell for each
resolved column (`none` models a missing cell, `r.get(key)` → `None`). -/
structure Row where
  latCell : Option String
  lonCell : Option String
  altCell : Option String
  spdCell : Option String
  trkCell : Option String
  bankCell : Option String
  pitchCell : Option String
  herCell : Option String
  verCell : Option String
  gCell : Option String
  epochCell : Option String
  sodCell : Option String

/-- One accepted track point, the dict appended to `tracks` (values kept
numeric; the fixed-precision rendering is downstream of every claim). -/
structure Sample where
  tsec : ℚ
  lat : ℚ
  lon : ℚ
  alt : Option ℚ
  course : Option ℚ
  speed : Option ℚ
  bank : Option ℝ
  pitch : Option ℝ
  her : Option ℚ
  ver : Option ℚ
  gload : Option ℚ

/-- Accumulator state of the pass-2 row loop of `main`. -/
structure AggState where
  first_dt : Option ℚ
  last_dt : Option ℚ
  first_lat : Option ℚ
  first_lon : Option ℚ
  last_lat : Option ℚ
  last_lon : Option ℚ
  prev_lat : Option ℚ
  prev_lon : Option ℚ
  total_m : ℝ
  her_vals : List ℚ
  ver_vals : List ℚ
  tracks : List Sample

/-- Initial accumulator state of pass 2. -/
noncomputable def initState : AggState :=
  ⟨none, none, none, none, none, none, none, none, 0, [], [], []⟩

/-- The row's latitude value: `to_num(lat_k)`. -/
def rowLat (cfg : Config) (r : Row) : Option ℚ :=
  if cfg.lat_k then parse_number r.latCell else none

/-- The row's longitude value: `to_num(lon_k)`. -/
def rowLon (cfg : Config) (r : Row) : Option ℚ :=
  if cfg.lon_k then parse_number r.lonCell else none

/-- The per-row time resolution of `main`: try the epoch column when it
resolved; whenever that yields no instant and the seconds-of-day column
resolved, try the seconds-of-day path. -/
def resolve_time (cfg : Config) (r : Row) : Option ℚ :=
  let dt1 : Option ℚ := if cfg.time_epoch_k then parse_epoch_as_dt r.epochCell else none
  match dt1 with
  | some t => some t
  | none =>
      if cfg.time_sod_k then
        parse_sod_as_dt r.sodCell cfg.anchorMidnight cfg.fallbackMidnight
      else none

/-- The Sample built from an accepted row. -/
noncomputable def mkSample (cfg : Config) (r : Row) (lat lon t : ℚ) : Sample :=
  ⟨t, lat, lon,
    if cfg.alt_k then parse_number r.altCell else none,
    (if cfg.trk_k then parse_number r.trkCell else none).map (fun v => pymod v 360),
    spd_to_knots (if cfg.spd_k then parse_number r.spdCell else none) cfg.spd_units,
    (if cfg.bank_k then parse_number r.bankCell else none).map
      (fun v => maybe_deg_from_rad (v : ℝ)),
    (if cfg.pitch_k then parse_number r.pitchCell else none).map
      (fun v => maybe_deg_from_rad (v : ℝ)),
    if cfg.her_k then parse_number r.herCell else none,
    if cfg.ver_k then parse_number r.verCell else none,
    if cfg.g_k then parse_number r.gCell else none⟩

/-- Accumulator update of the accepted-row branch of the loop body. -/
noncomputable def acceptRow (cfg : Config) (st : AggState) (r : Row)
    (lat lon t : ℚ) : AggState :=
  let her := if cfg.her_k then parse_number r.herCell else none
  let ver := if cfg.ver_k then parse_number r.verCell else none
  AggState.mk
    (match st.first_dt with
      | none => some t
      | some f => if t < f then some t else some f)
    (match st.last_dt with
      | none => some t
      | some l => if l < t then some t else some l)
    (match st.first_lat with
      | none => some lat
      | some fl => some fl)
    (match st.first_lat with
      | none => some lon
      | some _ => st.first_lon)
    (some lat) (some lon) (some lat) (some lon)
    (match st.prev_lat, st.prev_lon with
      | some pla, some plo => st.total_m + haversine_m pla plo lat lon
      | _, _ => st.total_m)
    (match her with
      | some h => st.her_vals ++ [h]
      | none => st.her_vals)
    (match ver with
      | some h => st.ver_vals ++ [h]
      | none => st.ver_vals)
    (st.tracks ++ [mkSample cfg r lat lon t])

/-- One iteration of the pass-2 row loop of `main`: skip the row when the
coordinates are out of range or no instant resolves, otherwise fold in the
accepted sample. -/
noncomputable def processRow (cfg : Config) (st : AggState) (r : Row) : AggState :=
  let lat? := rowLat cfg r
  let lon? := rowLon cfg r
  if in_range_latlon lat? lon? then
    match lat?, lon? with
    | some lat, some lon =>
      match resolve_time cfg r with
      | some t => acceptRow cfg st r lat lon t
      | none => st
    | _, _ => st
  else st

/-- The whole pass-2 fold of `main` over the row sequence. -/
noncomputable def runFold (cfg : Config) (rows : List Row) : AggState :=
  rows.foldl (processRow cfg) initState

/-- Fatal outcomes of `main`: `ap.error` (argparse, exit status 2) for
unresolved required columns, `sys.exit(1)` when no usable samples remain. -/
inductive RunError where
  | configError : RunError
  | dataError : RunError
deriving DecidableEq

/-- Process exit status of each fatal outcome (`argparse.error` exits
with 2; the no-usable-samples branch calls `sys.exit(1)`). -/
def exitCode : RunError → ℕ
  | RunError.configError => 2
  | RunError.dataError => 1

/-- Outcome of `main` up to but excluding output rendering: the checks for
required columns, the pass-2 fold, and the zero-surviving-rows check.  On
success the final accumulator state (from which the output file is
rendered) is returned; on failure nothing is produced. -/
noncomputable def runMain (cfg : Config) (rows : List Row) :
    Except RunError AggState :=
  if !(cfg.lat_k && cfg.lon_k) then Except.error RunError.configError
  else if !(cfg.time_epoch_k || cfg.time_sod_k) then Except.error RunError.configError
  else
    let st := runFold cfg rows
    if st.tracks.isEmpty then Except.error RunError.dataError
    else Except.ok st

/-! Concrete configurations and rows used by witnesses and counterexamples. -/

/-- A schema with latitude, longitude and the epoch time column resolved
(the minimum `main` accepts), fixed speed unit `"kts"`. -/
def cfgMain : Config :=
  ⟨true, true, false, false, false, false, false, false, false, false,
    true, false, none, 0, "kts"⟩

/-- A schema with latitude, longitude, and both time columns resolved,
with an explicit anchor date whose UTC midnight is epoch second 0. -/
def cfgBoth : Config :=
  ⟨true, true, false, false, false, false, false, false, false, false,
    true, true, some 0, 0, "kts"⟩

/-- Row at latitude 10, longitude 10, epoch second 100. -/
def rowM1 : Row :=
  ⟨some "10", some "10", none, none, none, none, none, none, none, none,
    some "100", none⟩

/-- Row at latitude 20, longitude 20, epoch second 50 (earlier in time than
`rowM1` but later in row order). -/
def rowM2 : Row :=
  ⟨some "20", some "20", none, none, none, none, none, none, none, none,
    some "50", none⟩

/-- Row with out-of-bounds latitude 91. -/
def row91 : Row :=
  ⟨some "91", some "10", none, none, none, none, none, none, none, none,
    some "100", none⟩

/-- Row whose latitude and longitude cells are present but empty strings,
with a valid epoch time. -/
def rowEmptyCells : Row :=
  ⟨some "", some " ", none, none, none, none, none, none, none, none,
    some "100", none⟩

/-- Row with a present but unparseable epoch cell and a valid
seconds-of-day cell. -/
def rowBadEpoch : Row :=
  ⟨some "1", some "1", none, none, none, none, none, none, none, none,
    some "abc", some "3600"⟩

/-! Helper lemmas about `parse_number`. -/

/-- A present cell whose empty-or-marker guard holds parses to zero. -/
lemma parse_number_cond_true (raw : String)
    (h : ((stripL raw.toList).isEmpty ||
      "%!f(".toList.isPrefixOf (stripL raw.toList)) = true) :
    parse_number (some raw) = some 0 := by
  simp only [parse_number]
  rw [if_pos h]

/-- A present cell whose empty-or-marker guard fails and whose direct parse
succeeds is subjected to the sentinel filter. -/
lemma parse_number_direct (s : String) (x : ℚ)
    (h0 : ((stripL s.toList).isEmpty ||
      "%!f(".toList.isPrefixOf (stripL s.toList)) = false)
    (hp : parseFloatL? (stripL s.toList) = some x) :
    parse_number (some s) =
      if x = 999999 ∨ qAbs x > 1000000000000 then none else some x := by
  simp only [parse_number]
  rw [h0, if_neg Bool.false_ne_true, hp]

/-- A present cell whose empty-or-marker guard fails, whose direct parse
fails, and for which a unit suffix matches, is re-parsed after suffix
stripping, restripping, and comma-to-point mapping — with no sentinel
filter. -/
lemma parse_number_suffix_path (s u : String)
    (h0 : ((stripL s.toList).isEmpty ||
      "%!f(".toList.isPrefixOf (stripL s.toList)) = false)
    (hp : parseFloatL? (stripL s.toList) = none)
    (hu : UNIT_SUFFIXES.find?
      (fun v => v.toList.isSuffixOf (lowerL (stripL s.toList))) = some u) :
    parse_number (some s) =
      parseFloatL?
        ((stripL ((stripL s.toList).take ((stripL s.toList).length - u.length))).map
          (fun c => if c = ',' then '.' else c)) := by
  simp only [parse_number]
  rw [h0, if_neg Bool.false_ne_true, hp, hu]

/-- A present cell that strips to the empty string parses to zero. -/
lemma parse_number_empty (raw : String) (h : stripL raw.toList = []) :
    parse_number (some raw) = some 0 :=
  parse_number_cond_true raw (by rw [h]; rfl)

/-- A present cell whose stripped value starts with the device
formatting-error marker parses to zero. -/
lemma parse_number_marker (raw : String)
    (h : "%!f(".toList.isPrefixOf (stripL raw.toList) = true) :
    parse_number (some raw) = some 0 :=
  parse_number_cond_true raw (by rw [h, Bool.or_true])

/-- Claim C1 counterexample: a present-but-empty raw string does not yield
absent; `parse_number("")` is `0.0`.  This refutes "an absent or empty
(after trimming) raw string yields absent". -/
theorem C1_counterexample : parse_number (some "") = some 0 := by decide

/-- Claim C1 (corrected): an absent raw value yields absent, while an input
that is empty after trimming, or matches the bracketed
device-formatting-error marker pattern, yields the number zero (not
absent). -/
theorem C1_amended :
    parse_number none = none ∧
    (∀ raw : String, stripL raw.toList = [] → parse_number (some raw) = some 0) ∧
    (∀ raw : String, "%!f(".toList.isPrefixOf (stripL raw.toList) = true →
      parse_number (some raw) = some 0) :=
  ⟨rfl, parse_number_empty, parse_number_marker⟩

/-- Witness for `C1_amended` at the concrete inputs `"  "` and
`"%!f(int=0)"`. -/
theorem C1_amended_witness :
    stripL "  ".toList = [] ∧ parse_number (some "  ") = some 0 ∧
    "%!f(".toList.isPrefixOf (stripL "%!f(int=0)".toList) = true ∧
    parse_number (some "%!f(int=0)") = some 0 :=
  ⟨by decide, C1_amended.2.1 "  " (by decide), by decide,
    C1_amended.2.2 "%!f(int=0)" (by decide)⟩

/-- Claim C2 counterexample: with both time columns resolved, a row whose
epoch cell is present but unparseable (`"abc"`) does not stay absent — the
seconds-of-day path is tried and yields an instant.  This refutes "a
present-but-invalid epoch stays absent and does not fall back". -/
theorem C2_counterexample :
    cfgBoth.time_epoch_k = true ∧
    rowBadEpoch.epochCell = some "abc" ∧
    parse_epoch_as_dt (some "abc") = none ∧
    resolve_time cfgBoth rowBadEpoch = some 3600 :=
  ⟨rfl, rfl, by decide, by decide⟩

/-- Claim C2 (corrected): when the epoch column resolved and its value
parses, that instant is the row's time; the seconds-of-day path is tried
whenever the epoch path yields no instant — either because the epoch
column itself is unresolved or because its present value fails to parse. -/
theorem C2_amended (cfg : Config) (r : Row) :
    (∀ t : ℚ, cfg.time_epoch_k = true → parse_epoch_as_dt r.epochCell = some t →
      resolve_time cfg r = some t) ∧
    ((cfg.time_epoch_k = false ∨ parse_epoch_as_dt r.epochCell = none) →
      resolve_time cfg r =
        if cfg.time_sod_k then
          parse_sod_as_dt r.sodCell cfg.anchorMidnight cfg.fallbackMidnight
        else none) := by
  constructor
  · intro t he hp
    simp [resolve_time, he, hp]
  · intro h
    rcases h with h | h
    · simp [resolve_time, h]
    · cases he : cfg.time_epoch_k <;> simp [resolve_time, he, h]

/-- Witness for `C2_amended` at `cfgBoth` and `rowBadEpoch`. -/
theorem C2_amended_witness :
    (cfgBoth.time_epoch_k = false ∨ parse_epoch_as_dt rowBadEpoch.epochCell = none) ∧
    resolve_time cfgBoth rowBadEpoch =
      (if cfgBoth.time_sod_k then
        parse_sod_as_dt rowBadEpoch.sodCell cfgBoth.anchorMidnight cfgBoth.fallbackMidnight
      else none) :=
  ⟨Or.inr (by decide), (C2_amended cfgBoth rowBadEpoch).2 (Or.inr (by decide))⟩

/-- Claim C4 counterexample: `"999999kts"` denotes the sentinel value
999999 via the unit-suffix-stripping re-parse path, yet `parse_number`
returns it instead of absent.  This refutes "including values obtained via
the unit-suffix-stripping re-parse path". -/
theorem C4_counterexample :
    parseFloatL? (stripL "999999kts".toList) = none ∧
    parseFloatL?
      ((stripL ((stripL "999999kts".toList).take
          ((stripL "999999kts".toList).length - "kts".length))).map
        (fun c => if c = ',' then '.' else c)) = some 999999 ∧
    parse_number (some "999999kts") = some 999999 :=
  ⟨by decide, by decide, by decide⟩

/-- Claim C4 (corrected): the sentinel filter (exact value 999999 or
magnitude greater than 1e12) applies only to the direct-parse path: a
nonempty, non-marker input whose direct parse denotes such a value yields
absent, while a value obtained via the unit-suffix-stripping re-parse path
is returned unfiltered. -/
theorem C4_amended (s : String) (x : ℚ)
    (h0 : ((stripL s.toList).isEmpty ||
      "%!f(".toList.isPrefixOf (stripL s.toList)) = false) :
    (parseFloatL? (stripL s.toList) = some x → (x = 999999 ∨ |x| > 10 ^ 12) →
      parse_number (some s) = none) ∧
    (parseFloatL? (stripL s.toList) = none →
      ∀ u : String,
        UNIT_SUFFIXES.find? (fun v => v.toList.isSuffixOf (lowerL (stripL s.toList))) = some u →
        parseFloatL?
          ((stripL ((stripL s.toList).take ((stripL s.toList).length - u.length))).map
            (fun c => if c = ',' then '.' else c)) = some x →
        parse_number (some s) = some x) := by
  constructor
  · intro hp hs
    have hc : x = 999999 ∨ qAbs x > 1000000000000 := by
      rcases hs with h | h
      · exact Or.inl h
      · refine Or.inr ?_
        rw [qAbs_eq]
        calc (1000000000000 : ℚ) = 10 ^ 12 := by norm_num
          _ < |x| := h
    rw [parse_number_direct s x h0 hp, if_pos hc]
  · intro hp u hu hx
    rw [parse_number_suffix_path s u h0 hp hu, hx]

/-- Witness for `C4_amended` at the concrete input `"1e13"` (direct parse,
magnitude greater than 1e12). -/
theorem C4_amended_witness :
    ((stripL "1e13".toList).isEmpty ||
      "%!f(".toList.isPrefixOf (stripL "1e13".toList)) = false ∧
    parseFloatL? (stripL "1e13".toList) = some 10000000000000 ∧
    parse_number (some "1e13") = none :=
  ⟨by decide, by decide,
    (C4_amended "1e13" 10000000000000 (by decide)).1 (by decide)
      (Or.inr (by norm_num))⟩

/-- Claim C7 counterexample: five valid speed samples with median 200 are
classified as knots (the knots band `[40,250]` has priority), not km/h.
This refutes the claim's example "median 200 → km/h". -/
theorem C7_counterexample :
    medianOf [190, 195, 200, 205, 210] = 200 ∧
    detect_speed_units [some 190, some 195, some 200, some 205, some 210] = "kts" :=
  ⟨by decide, by decide⟩

/-- Claim C7 (corrected): with fewer than 5 valid samples the result is
knots; otherwise the median of the valid samples (sorted middle element)
is classified as knots for `[40,250]`, else meters-per-second for
`[18,100]`, else km/h for `[70,450]`, in that priority order, defaulting
to knots — so median 55 → knots, median 30 → meters-per-second, and
median 200 → knots (a km/h classification requires a median in
`(250,450]`, e.g. 300). -/
theorem C7_amended (samples : List (Option ℚ)) :
    ((samples.filterMap id).length < 5 → detect_speed_units samples = "kts") ∧
    (5 ≤ (samples.filterMap id).length →
      detect_speed_units samples =
        (if 40 ≤ medianOf (samples.filterMap id) ∧ medianOf (samples.filterMap id) ≤ 250 then "kts"
        else if 18 ≤ medianOf (samples.filterMap id) ∧ medianOf (samples.filterMap id) ≤ 100 then "mps"
        else if 70 ≤ medianOf (samples.filterMap id) ∧ medianOf (samples.filterMap id) ≤ 450 then "kmh"
        else "kts")) ∧
    detect_speed_units [some 50, some 52, some 55, some 57, some 60] = "kts" ∧
    detect_speed_units [some 28, some 29, some 30, some 31, some 32] = "mps" ∧
    detect_speed_units [some 190, some 195, some 200, some 205, some 210] = "kts" ∧
    detect_speed_units [some 280, some 290, some 300, some 310, some 320] = "kmh" := by
  refine ⟨?_, ?_, by decide, by decide, by decide, by decide⟩
  · intro h
    simp [detect_speed_units, h]
  · intro h
    simp [detect_speed_units, Nat.not_lt.mpr h]

/-- Witness for `C7_amended`: the short-sample branch at two samples of
value 300, and the median branch at five samples with median 55. -/
theorem C7_amended_witness :
    ([some (300 : ℚ), some 300].filterMap id).length < 5 ∧
    detect_speed_units [some (300 : ℚ), some 300] = "kts" ∧
    5 ≤ ([some (55 : ℚ), some 50, some 52, some 57, some 60].filterMap id).length ∧
    detect_speed_units [some (55 : ℚ), some 50, some 52, some 57, some 60] =
      (if 40 ≤ medianOf ([some (55 : ℚ), some 50, some 52, some 57, some 60].filterMap id) ∧
          medianOf ([some (55 : ℚ), some 50, some 52, some 57, some 60].filterMap id) ≤ 250 then "kts"
      else if 18 ≤ medianOf ([some (55 : ℚ), some 50, some 52, some 57, some 60].filterMap id) ∧
          medianOf ([some (55 : ℚ), some 50, some 52, some 57, some 60].filterMap id) ≤ 100 then "mps"
      else if 70 ≤ medianOf ([some (55 : ℚ), some 50, some 52, some 57, some 60].filterMap id) ∧
          medianOf ([some (55 : ℚ), some 50, some 52, some 57, some 60].filterMap id) ≤ 450 then "kmh"
      else "kts") :=
  ⟨by decide, (C7_amended [some (300 : ℚ), some 300]).1 (by decide), by decide,
    (C7_amended [some (55 : ℚ), some 50, some 52, some 57, some 60]).2.1 (by decide)⟩

/-! List helpers used to state the track-summary properties. -/

/-- Minimum of a value list, `none` on the empty list. -/
def listMin? : List ℚ → Option ℚ
  | [] => none
  | x :: xs => some (xs.foldl min x)

/-- Maximum of a value list, `none` on the empty list. -/
def listMax? : List ℚ → Option ℚ
  | [] => none
  | x :: xs => some (xs.foldl max x)

lemma listMin?_concat (xs : List ℚ) (a : ℚ) :
    listMin? (xs ++ [a]) =
      some (match listMin? xs with | none => a | some m => min m a) := by
  cases xs with
  | nil => rfl
  | cons x rest => simp [listMin?, List.foldl_append]

lemma listMax?_concat (xs : List ℚ) (a : ℚ) :
    listMax? (xs ++ [a]) =
      some (match listMax? xs with | none => a | some m => max m a) := by
  cases xs with
  | nil => rfl
  | cons x rest => simp [listMax?, List.foldl_append]

/-- Sum of haversine distances over consecutive pairs of a coordinate
list; the empty list and a single coordinate contribute nothing. -/
noncomputable def pairSum : List (ℚ × ℚ) → ℝ
  | [] => 0
  | [_] => 0
  | a :: b :: rest => haversine_m a.1 a.2 b.1 b.2 + pairSum (b :: rest)

lemma pairSum_concat (xs : List (ℚ × ℚ)) (p : ℚ × ℚ) :
    pairSum (xs ++ [p]) = pairSum xs +
      (match xs.getLast? with
        | none => 0
        | some q => haversine_m q.1 q.2 p.1 p.2) := by
  induction xs with
  | nil => simp [pairSum]
  | cons a tl ih =>
    cases tl with
    | nil => simp [pairSum]
    | cons b tl2 =>
      have e1 : pairSum ((a :: b :: tl2) ++ [p]) =
          haversine_m a.1 a.2 b.1 b.2 + pairSum ((b :: tl2) ++ [p]) := rfl
      have e2 : pairSum (a :: b :: tl2) =
          haversine_m a.1 a.2 b.1 b.2 + pairSum (b :: tl2) := rfl
      rw [e1, e2, ih, List.getLast?_cons_cons, add_assoc]

/-! Characterizations of one loop iteration. -/

lemma in_range_latlon_some {lat? lon? : Option ℚ}
    (h : in_range_latlon lat? lon? = true) :
    ∃ la lo, lat? = some la ∧ lon? = some lo := by
  cases lat? with
  | none => cases lon? <;> simp [in_range_latlon] at h
  | some la =>
    cases lon? with
    | none => simp [in_range_latlon] at h
    | some lo => exact ⟨la, lo, rfl, rfl⟩

lemma processRow_skip_range (cfg : Config) (st : AggState) (r : Row)
    (h : in_range_latlon (rowLat cfg r) (rowLon cfg r) = false) :
    processRow cfg st r = st := by
  simp only [processRow]
  rw [h, if_neg Bool.false_ne_true]

lemma processRow_skip_time (cfg : Config) (st : AggState) (r : Row)
    (ht : resolve_time cfg r = none) :
    processRow cfg st r = st := by
  by_cases hb : in_range_latlon (rowLat cfg r) (rowLon cfg r) = true
  · obtain ⟨la, lo, h1, h2⟩ := in_range_latlon_some hb
    have hb' := hb
    rw [h1, h2] at hb'
    simp only [processRow]
    rw [h1, h2, if_pos hb', ht]
  · exact processRow_skip_range cfg st r (by simpa using hb)

lemma processRow_accept (cfg : Config) (st : AggState) (r : Row) (lat lon t : ℚ)
    (h1 : rowLat cfg r = some lat) (h2 : rowLon cfg r = some lon)
    (hr : in_range_latlon (some lat) (some lon) = true)
    (ht : resolve_time cfg r = some t) :
    processRow cfg st r = acceptRow cfg st r lat lon t := by
  simp only [processRow]
  rw [h1, h2, if_pos hr, ht]

lemma foldl_preserve {P : AggState → Prop} (cfg : Config) (rows : List Row)
    (st : AggState) (h0 : P st)
    (hstep : ∀ s r, P s → P (processRow cfg s r)) :
    P (rows.foldl (processRow cfg) st) := by
  induction rows generalizing st with
  | nil => exact h0
  | cons r rest ih => exact ih (processRow cfg st r) (hstep st r h0)

/-! Extrema invariant (claim C3). -/

/-- Invariant of the loop state: the time extrema are the min/max of the
accepted samples' timestamps, and the first/last coordinates are those of
the first/last accepted sample in row order. -/
def ExtremaInv (st : AggState) : Prop :=
  st.first_dt = listMin? (st.tracks.map Sample.tsec) ∧
  st.last_dt = listMax? (st.tracks.map Sample.tsec) ∧
  st.first_lat = st.tracks.head?.map Sample.lat ∧
  st.first_lon = st.tracks.head?.map Sample.lon ∧
  st.last_lat = st.tracks.getLast?.map Sample.lat ∧
  st.last_lon = st.tracks.getLast?.map Sample.lon

lemma extremaInv_init : ExtremaInv initState := ⟨rfl, rfl, rfl, rfl, rfl, rfl⟩

lemma extremaInv_accept (cfg : Config) (st : AggState) (r : Row) (lat lon t : ℚ)
    (h : ExtremaInv st) : ExtremaInv (acceptRow cfg st r lat lon t) := by
  obtain ⟨e1, e2, e3, e4, e5, e6⟩ := h
  refine ⟨?_, ?_, ?_, ?_, ?_, ?_⟩
  · dsimp only [acceptRow]
    rw [List.map_append]
    simp only [List.map_cons, List.map_nil, mkSample]
    rw [listMin?_concat, ← e1]
    cases hf : st.first_dt with
    | none => rfl
    | some f =>
      dsimp only
      rcases lt_or_le t f with hlt | hle
      · rw [if_pos hlt, min_eq_right hlt.le]
      · rw [if_neg (not_lt.mpr hle), min_eq_left hle]
  · dsimp only [acceptRow]
    rw [List.map_append]
    simp only [List.map_cons, List.map_nil, mkSample]
    rw [listMax?_concat, ← e2]
    cases hf : st.last_dt with
    | none => rfl
    | some l =>
      dsimp only
      rcases lt_or_le l t with hlt | hle
      · rw [if_pos hlt, max_eq_right hlt.le]
      · rw [if_neg (not_lt.mpr hle), max_eq_left hle]
  · dsimp only [acceptRow]
    cases htr : st.tracks with
    | nil =>
      rw [htr] at e3
      simp only [List.head?_nil, Option.map_none'] at e3
      rw [e3]
      simp [mkSample]
    | cons y ys =>
      rw [htr] at e3
      simp only [List.head?_cons, Option.map_some'] at e3
      rw [e3]
      simp
  · dsimp only [acceptRow]
    cases htr : st.tracks with
    | nil =>
      rw [htr] at e3
      simp only [List.head?_nil, Option.map_none'] at e3
      rw [e3]
      simp [mkSample]
    | cons y ys =>
      rw [htr] at e3 e4
      simp only [List.head?_cons, Option.map_some'] at e3 e4
      rw [e3, e4]
      simp
  · dsimp only [acceptRow]
    simp [List.getLast?_concat, mkSample]
  · dsimp only [acceptRow]
    simp [List.getLast?_concat, mkSample]

lemma extremaInv_step (cfg : Config) :
    ∀ st r, ExtremaInv st → ExtremaInv (processRow cfg st r) := by
  intro st r h
  by_cases hb : in_range_latlon (rowLat cfg r) (rowLon cfg r) = true
  · obtain ⟨la, lo, h1, h2⟩ := in_range_latlon_some hb
    cases ht : resolve_time cfg r with
    | none => rw [processRow_skip_time cfg st r ht]; exact h
    | some t =>
      rw [processRow_accept cfg st r la lo t h1 h2 (by rw [h1, h2] at hb; exact hb) ht]
      exact extremaInv_accept cfg st r la lo t h
  · rw [processRow_skip_range cfg st r (by simpa using hb)]; exact h

/-- Claim C3 counterexample: with rows not time-sorted (epoch 100 at
latitude 10 first, epoch 50 at latitude 20 second), the global minimum
timestamp is 50, the unique sample at timestamp 50 has latitude 20, yet
the summary's first latitude is 10 — the coordinates of the first accepted
row in row order, not of the sample at the timestamp minimum. -/
theorem C3_counterexample :
    (runFold cfgMain [rowM1, rowM2]).first_dt = some 50 ∧
    (runFold cfgMain [rowM1, rowM2]).first_lat = some 10 ∧
    ((runFold cfgMain [rowM1, rowM2]).tracks.filter
      (fun s => s.tsec = 50)).map Sample.lat = [20] :=
  ⟨by decide, by decide, by decide⟩

/-- Claim C3 (corrected): the summary's first/last timestamps are the
global minimum/maximum over accepted samples, but its first/last
coordinates are those of the first and last accepted samples in row order;
these coincide with the coordinates at the timestamp extrema only when
samples are time-sorted in row order. -/
theorem C3_amended (cfg : Config) (rows : List Row) :
    (runFold cfg rows).first_dt =
      listMin? ((runFold cfg rows).tracks.map Sample.tsec) ∧
    (runFold cfg rows).last_dt =
      listMax? ((runFold cfg rows).tracks.map Sample.tsec) ∧
    (runFold cfg rows).first_lat = (runFold cfg rows).tracks.head?.map Sample.lat ∧
    (runFold cfg rows).first_lon = (runFold cfg rows).tracks.head?.map Sample.lon ∧
    (runFold cfg rows).last_lat = (runFold cfg rows).tracks.getLast?.map Sample.lat ∧
    (runFold cfg rows).last_lon = (runFold cfg rows).tracks.getLast?.map Sample.lon :=
  foldl_preserve cfg rows initState extremaInv_init (extremaInv_step cfg)

/-! Distance invariant (claims C6, C5). -/

/-- Invariant of the loop state: the previous accepted coordinate is that
of the last accepted sample, and the accumulated distance is the sum of
consecutive haversine distances over accepted samples. -/
def DistInv (st : AggState) : Prop :=
  st.prev_lat = st.tracks.getLast?.map Sample.lat ∧
  st.prev_lon = st.tracks.getLast?.map Sample.lon ∧
  st.total_m = pairSum (st.tracks.map (fun s => (s.lat, s.lon)))

lemma distInv_init : DistInv initState := ⟨rfl, rfl, rfl⟩

lemma distInv_accept (cfg : Config) (st : AggState) (r : Row) (lat lon t : ℚ)
    (h : DistInv st) : DistInv (acceptRow cfg st r lat lon t) := by
  obtain ⟨d1, d2, d3⟩ := h
  refine ⟨?_, ?_, ?_⟩
  · dsimp only [acceptRow]
    simp [List.getLast?_concat, mkSample]
  · dsimp only [acceptRow]
    simp [List.getLast?_concat, mkSample]
  · dsimp only [acceptRow]
    rw [List.map_append]
    simp only [List.map_cons, List.map_nil, mkSample]
    rw [pairSum_concat, List.getLast?_map]
    cases hq : st.tracks.getLast? with
    | none =>
      have hp1 : st.prev_lat = none := by rw [d1, hq]; rfl
      have hp2 : st.prev_lon = none := by rw [d2, hq]; rfl
      rw [hp1, hp2]
      simp [d3]
    | some q =>
      have hp1 : st.prev_lat = some q.lat := by rw [d1, hq]; rfl
      have hp2 : st.prev_lon = some q.lon := by rw [d2, hq]; rfl
      rw [hp1, hp2]
      simp [d3]

lemma distInv_step (cfg : Config) :
    ∀ st r, DistInv st → DistInv (processRow cfg st r) := by
  intro st r h
  by_cases hb : in_range_latlon (rowLat cfg r) (rowLon cfg r) = true
  · obtain ⟨la, lo, h1, h2⟩ := in_range_latlon_some hb
    cases ht : resolve_time cfg r with
    | none => rw [processRow_skip_time cfg st r ht]; exact h
    | some t =>
      rw [processRow_accept cfg st r la lo t h1 h2 (by rw [h1, h2] at hb; exact hb) ht]
      exact distInv_accept cfg st r la lo t h
  · rw [processRow_skip_range cfg st r (by simpa using hb)]; exact h

lemma haversine_self (la lo : ℚ) : haversine_m la lo la lo = 0 := by
  unfold haversine_m
  simp

/-- Claim C6 (confirmed): for every run, the accumulated distance equals
the sum of haversine great-circle distances (Earth radius 6 371 000 m)
between each accepted sample's coordinate and the previous accepted
sample's coordinate, the very first accepted sample contributing no
distance (`pairSum` of a singleton is 0); and the haversine distance
between identical coordinates is exactly zero, so two accepted rows with
identical coordinates contribute zero distance. -/
theorem C6_theorem (cfg : Config) (rows : List Row) :
    (runFold cfg rows).total_m =
      pairSum ((runFold cfg rows).tracks.map (fun s => (s.lat, s.lon))) ∧
    ∀ la lo : ℚ, haversine_m la lo la lo = 0 :=
  ⟨(foldl_preserve cfg rows initState distInv_init (distInv_step cfg)).2.2,
    haversine_self⟩

/-- Claim C8 (confirmed): a row with out-of-bounds coordinates or an
unresolvable timestamp leaves the loop state — cumulative distance,
time/coordinate extrema, error-value collections, and the sample sequence
— entirely unchanged; no Sample is produced for it. -/
theorem C8_theorem (cfg : Config) (st : AggState) (r : Row)
    (h : in_range_latlon (rowLat cfg r) (rowLon cfg r) = false ∨
      resolve_time cfg r = none) :
    processRow cfg st r = st := by
  rcases h with h | h
  · exact processRow_skip_range cfg st r h
  · exact processRow_skip_time cfg st r h

/-- Witness for `C8_theorem`: the concrete row with latitude 91 is skipped
and leaves the initial state unchanged. -/
theorem C8_witness :
    in_range_latlon (rowLat cfgMain row91) (rowLon cfgMain row91) = false ∧
    processRow cfgMain initState row91 = initState :=
  ⟨by decide, C8_theorem cfgMain initState row91 (Or.inl (by decide))⟩

/-- Claim C5 (confirmed): a row whose latitude and longitude cells are
present but empty strings (and whose time resolves) is not skipped — both
cells parse to zero, a Sample at coordinates (0, 0) is appended to the
output sequence, the last/first coordinates and the time extrema are
updated with it, and it contributes a haversine leg to the cumulative
distance whenever a previously accepted sample exists. -/
theorem C5_theorem (cfg : Config) (st : AggState) (r : Row) (sl so : String) (t : ℚ)
    (hl : cfg.lat_k = true) (ho : cfg.lon_k = true)
    (h1 : r.latCell = some sl) (h2 : stripL sl.toList = [])
    (h3 : r.lonCell = some so) (h4 : stripL so.toList = [])
    (ht : resolve_time cfg r = some t) :
    parse_number r.latCell = some 0 ∧
    parse_number r.lonCell = some 0 ∧
    ((processRow cfg st r).tracks.map (fun s => (s.tsec, s.lat, s.lon)) =
      st.tracks.map (fun s => (s.tsec, s.lat, s.lon)) ++ [(t, 0, 0)]) ∧
    (processRow cfg st r).last_lat = some 0 ∧
    (processRow cfg st r).last_lon = some 0 ∧
    (processRow cfg st r).total_m =
      (match st.prev_lat, st.prev_lon with
        | some pla, some plo => st.total_m + haversine_m pla plo 0 0
        | _, _ => st.total_m) ∧
    (processRow cfg st r).first_dt =
      some (match st.first_dt with | none => t | some f => min f t) ∧
    (processRow cfg st r).last_dt =
      some (match st.last_dt with | none => t | some l => max l t) ∧
    (st.first_lat = none → (processRow cfg st r).first_lat = some 0) := by
  have hp_lat : rowLat cfg r = some 0 := by
    rw [rowLat, hl, if_pos rfl, h1, parse_number_empty sl h2]
  have hp_lon : rowLon cfg r = some 0 := by
    rw [rowLon, ho, if_pos rfl, h3, parse_number_empty so h4]
  have hr : in_range_latlon (some 0) (some 0) = true := by decide
  have hacc := processRow_accept cfg st r 0 0 t hp_lat hp_lon hr ht
  refine ⟨by rw [h1]; exact parse_number_empty sl h2,
    by rw [h3]; exact parse_number_empty so h4, ?_, ?_, ?_, ?_, ?_, ?_, ?_⟩
  · rw [hacc]
    dsimp only [acceptRow]
    rw [List.map_append]
    simp [mkSample]
  · rw [hacc]; rfl
  · rw [hacc]; rfl
  · rw [hacc]; rfl
  · rw [hacc]
    dsimp only [acceptRow]
    cases hf : st.first_dt with
    | none => rfl
    | some f =>
      dsimp only
      rcases lt_or_le t f with hlt | hle
      · rw [if_pos hlt, min_eq_right hlt.le]
      · rw [if_neg (not_lt.mpr hle), min_eq_left hle]
  · rw [hacc]
    dsimp only [acceptRow]
    cases hf : st.last_dt with
    | none => rfl
    | some l =>
      dsimp only
      rcases lt_or_le l t with hlt | hle
      · rw [if_pos hlt, max_eq_right hlt.le]
      · rw [if_neg (not_lt.mpr hle), max_eq_left hle]
  · intro hnone
    rw [hacc]
    dsimp only [acceptRow]
    rw [hnone]

/-- Witness for `C5_theorem` at the concrete row with empty coordinate
cells and epoch second 100, folded into the initial state. -/
theorem C5_witness :
    resolve_time cfgMain rowEmptyCells = some 100 ∧
    (processRow cfgMain initState rowEmptyCells).tracks.map
      (fun s => (s.tsec, s.lat, s.lon)) = [(100, 0, 0)] := by
  refine ⟨by decide, ?_⟩
  have h := C5_theorem cfgMain initState rowEmptyCells "" " " 100 rfl rfl rfl
    (by decide) rfl (by decide) (by decide)
  simpa using h.2.2.1

/-! Aerodrome lookup (claim C9). -/

lemma nearStep_cases (lat lon : ℚ) (b : String × ℝ) (a : String × ℚ × ℚ) :
    nearStep lat lon b a = b ∨
    nearStep lat lon b a = (a.1, haversine_m lat lon a.2.1 a.2.2 / 1852) := by
  simp only [nearStep]
  split
  · exact Or.inr rfl
  · exact Or.inl rfl

lemma nearFold_cases (lat lon : ℚ) (l : List (String × ℚ × ℚ)) (acc : String × ℝ) :
    l.foldl (nearStep lat lon) acc = acc ∨
    ∃ a ∈ l, l.foldl (nearStep lat lon) acc =
      (a.1, haversine_m lat lon a.2.1 a.2.2 / 1852) := by
  induction l generalizing acc with
  | nil => exact Or.inl rfl
  | cons a tl ih =>
    rw [List.foldl_cons]
    rcases ih (nearStep lat lon acc a) with h | ⟨b, hb, h⟩
    · rw [h]
      rcases nearStep_cases lat lon acc a with h2 | h2
      · exact Or.inl h2
      · exact Or.inr ⟨a, List.mem_cons_self a tl, h2⟩
    · exact Or.inr ⟨b, List.mem_cons_of_mem a hb, h⟩

/-- Claim C9 (confirmed): `nearest_airport_ident` returns the empty
identifier ("no match") on an empty record set, returns the empty
identifier when every record is farther than the radius, and whenever it
returns a nonempty identifier, that identifier belongs to some record
whose haversine distance (in nautical miles) to the query point is at most
`max_nm`. -/
theorem C9_theorem (lat lon : ℚ) (airports : List (String × ℚ × ℚ)) (max_nm : ℝ) :
    (airports = [] → nearest_airport_ident lat lon airports max_nm = "") ∧
    ((∀ a ∈ airports, max_nm < haversine_m lat lon a.2.1 a.2.2 / 1852) →
      nearest_airport_ident lat lon airports max_nm = "") ∧
    (nearest_airport_ident lat lon airports max_nm ≠ "" →
      ∃ a ∈ airports, a.1 = nearest_airport_ident lat lon airports max_nm ∧
        haversine_m lat lon a.2.1 a.2.2 / 1852 ≤ max_nm) := by
  refine ⟨?_, ?_, ?_⟩
  · intro h
    subst h
    simp only [nearest_airport_ident, List.foldl_nil]
    split <;> rfl
  · intro hall
    simp only [nearest_airport_ident]
    rcases nearFold_cases lat lon airports ("", (10 : ℝ) ^ (9 : ℕ)) with h | ⟨b, hb, h⟩
    · rw [h]
      split <;> rfl
    · rw [h]
      exact if_neg (not_le.mpr (hall b hb))
  · intro hne
    simp only [nearest_airport_ident] at hne ⊢
    rcases nearFold_cases lat lon airports ("", (10 : ℝ) ^ (9 : ℕ)) with h | ⟨b, hb, h⟩
    · rw [h] at hne ⊢
      exact absurd (by split <;> rfl) hne
    · rw [h] at hne ⊢
      by_cases hd : haversine_m lat lon b.2.1 b.2.2 / 1852 ≤ max_nm
      · rw [if_pos hd] at hne ⊢
        exact ⟨b, hb, rfl, hd⟩
      · rw [if_neg hd] at hne
        exact absurd rfl hne

/-- Witness for `C9_theorem`: the empty record set yields "no match". -/
theorem C9_witness : nearest_airport_ident 0 0 [] 20 = "" :=
  (C9_theorem 0 0 [] 20).1 rfl

/-! Run outcome (claim C10). -/

/-- Claim C10 (confirmed): when the schema resolves (latitude, longitude
and at least one time column) but zero rows survive filtering, the run
fails with `DataError` — no output state is produced — and its exit
status (1) is distinct from the `ConfigurationError` exit status (2). -/
theorem C10_theorem (cfg : Config) (rows : List Row)
    (hlat : cfg.lat_k = true) (hlon : cfg.lon_k = true)
    (htime : (cfg.time_epoch_k || cfg.time_sod_k) = true)
    (hempty : (runFold cfg rows).tracks = []) :
    runMain cfg rows = Except.error RunError.dataError ∧
    (∀ st : AggState, runMain cfg rows ≠ Except.ok st) ∧
    exitCode RunError.dataError ≠ exitCode RunError.configError := by
  have h1 : runMain cfg rows = Except.error RunError.dataError := by
    simp only [runMain, hlat, hlon, htime, Bool.and_self, Bool.not_true,
      if_neg Bool.false_ne_true]
    rw [if_pos]
    rw [hempty]
    rfl
  refine ⟨h1, ?_, by decide⟩
  intro st hok
  rw [h1] at hok
  cases hok

/-- Witness for `C10_theorem`: the resolved schema `cfgMain` with an empty
row sequence fails with `DataError`. -/
theorem C10_witness :
    cfgMain.lat_k = true ∧ (cfgMain.time_epoch_k || cfgMain.time_sod_k) = true ∧
    (runFold cfgMain []).tracks = [] ∧
    runMain cfgMain [] = Except.error RunError.dataError :=
  ⟨rfl, rfl, rfl, (C10_theorem cfgMain [] rfl rfl rfl rfl).1⟩

end StratuxConv
